import Mathlib

/-!
# Multi-Method Valuation Engine: a shallow embedding

This file embeds the valuation logic of the repository's
`client/src/components/MultiModelValuation.tsx` and
`client/src/components/ValuationAnalysis.tsx` (their `getAIRecommendation`
and `calculateValuations` closures share identical code for the parts both
files contain; `ValuationAnalysis.tsx` additionally parses churn/CAC/LTV and
computes the `ucaas` and `ai` values), together with the percent-field
handler of the valuation wizard (`handleCompanyDataChange`).

Conventions of the embedding:
* JavaScript numbers are modelled as rationals (`ℚ`).  All arithmetic the
  claims touch is exact in the source except for the one place where an IEEE
  special value (NaN) can arise, the DCF margin `ebitda / revenue || 0.3`;
  there the embedding returns an `Option ℚ` with `none` standing for NaN.
* A raw numeric form field is the result of JavaScript `parseFloat` applied
  to the value of a `type="number"` input: `some q` for a numeral string,
  `none` for the empty string (whose `parseFloat` is NaN).
* A raw qualitative field is a plain string, `""` standing for an absent or
  `undefined` field (both are falsy in the `||`-defaulting the source uses).
* `x || d` on a parsed number is `jsOrNum`: NaN (`none`) and `0` are falsy.
-/


namespace Valuation

/-- Raw company data as received by the valuation components
(the `companyData` prop of `MultiModelValuation` / `ValuationAnalysis`). -/
structure CompanyData where
  revenue : Option ℚ
  growthRate : Option ℚ
  expenses : Option ℚ
  employees : Option ℚ
  customerCount : Option ℚ
  churnRate : Option ℚ
  cac : Option ℚ
  ltv : Option ℚ
  stage : String
  teamExperience : String
  productStage : String

/-- JavaScript `parseFloat(s) || d`: NaN (`none`) and `0` fall back to `d`. -/
def jsOrNum (x : Option ℚ) (d : ℚ) : ℚ :=
  match x with
  | none => d
  | some v => if v = 0 then d else v

/-- JavaScript `s || d` on a string: the empty (or absent) string falls
back to `d`. -/
def jsOrStr (s d : String) : String :=
  if s = "" then d else s

/-- The numeric parsing and defaulting at the top of `calculateValuations`
(`parseFloat(companyData.revenue) || 0`, `... growthRate) || 35`,
`... expenses) || 0`, `... customerCount) || 0`, `... churnRate) || 8`,
`... cac) || 1200`, `... ltv) || 5000`), the employee parse
`parseFloat(companyData.employees || '0')` used by the comparables method,
and the qualitative defaulting in `getAIRecommendation`
(`stage || 'unknown'`, `teamExperience || 'medium'`,
`productStage || 'development'`). -/
structure ParsedInputs where
  revenue : ℚ
  growthRate : ℚ
  expenses : ℚ
  employees : ℚ
  customerCount : ℚ
  churnRate : ℚ
  cac : ℚ
  ltv : ℚ
  stage : String
  teamExperience : String
  productStage : String

/-- Input normalizer: the parsing/defaulting layer of the source, gathered
into one record. -/
def normalize (cd : CompanyData) : ParsedInputs where
  revenue := jsOrNum cd.revenue 0
  growthRate := jsOrNum cd.growthRate 35
  expenses := jsOrNum cd.expenses 0
  employees := cd.employees.getD 0
  customerCount := jsOrNum cd.customerCount 0
  churnRate := jsOrNum cd.churnRate 8
  cac := jsOrNum cd.cac 1200
  ltv := jsOrNum cd.ltv 5000
  stage := jsOrStr cd.stage "unknown"
  teamExperience := jsOrStr cd.teamExperience "medium"
  productStage := jsOrStr cd.productStage "development"

/-- The method identifiers of `methodValues` in the source. -/
inductive Method where
  | berkus | scorecard | riskFactor | vcMethod | dcf | comparables
  | ucaas | ai
  deriving DecidableEq, Repr

/-- `getAIRecommendation`: the rule-based method selector, verbatim from the
source (both components contain the identical closure). -/
def getAIRecommendation (cd : CompanyData) : Method :=
  let revenue := jsOrNum cd.revenue 0
  let hasRevenue := 0 < revenue
  let stage := jsOrStr cd.stage "unknown"
  let teamExp := jsOrStr cd.teamExperience "medium"
  let productStage := jsOrStr cd.productStage "development"
  if ¬hasRevenue ∧ (stage = "idea" ∨ stage = "pre-revenue") then
    if teamExp = "high" ∧ productStage = "mvp" then Method.scorecard
    else Method.berkus
  else if hasRevenue ∧ revenue < 1000000 then Method.riskFactor
  else if hasRevenue ∧ 1000000 ≤ revenue then
    if stage = "growth" ∨ stage = "expansion" then Method.dcf
    else Method.comparables
  else Method.scorecard

/-- The method-selection decision tree exactly as the specification words it
(§4.4): five rules evaluated in order, first match wins.  Stated over the
profile features the selector reads. -/
def specSelector (revenue : ℚ) (stage teamExp productMaturity : String) :
    Method :=
  if ¬0 < revenue ∧ (stage = "idea" ∨ stage = "pre-revenue") then
    if teamExp = "high" ∧ productMaturity = "mvp" then Method.scorecard
    else Method.berkus
  else if 0 < revenue ∧ revenue < 1000000 then Method.riskFactor
  else if 1000000 ≤ revenue ∧ (stage = "growth" ∨ stage = "expansion") then
    Method.dcf
  else if 1000000 ≤ revenue then Method.comparables
  else Method.scorecard

/-- Scenario A of the spec: revenue 0, stage `pre-revenue`, team experience
`medium`. -/
def scenarioA : CompanyData :=
  ⟨some 0, none, none, none, none, none, none, none,
    "pre-revenue", "medium", ""⟩

/-! ## Method calculators (`calculateValuations`) -/

/-- The five Berkus factor scores, fixed literals in the source
(`soundIdea`, `prototypeQuality`, `qualityManagement`,
`strategicRelationships`, `productRollout`). -/
def berkusFactors : List ℚ := [1/2, 7/10, 4/5, 3/5, 1/2]

/-- `maxBerkusValue`, the $2M cap. -/
def maxBerkusValue : ℚ := 2000000

/-- `berkusValue = Object.values(berkusFactors).reduce(...) / 5 * maxBerkusValue`.
The source computes it from the literal factor object; it reads nothing from
`companyData`, which the parameter records. -/
def berkusValue (_cd : CompanyData) : ℚ :=
  berkusFactors.sum / 5 * maxBerkusValue

/-- `regionAverage`, the average pre-money valuation constant. -/
def regionAverage : ℚ := 2000000

/-- The seven Scorecard adjustment factors, fixed literals in the source
(`strength`, `sizeOfOpportunity`, `product`, `competitive`, `marketing`,
`needForFunding`, `other`). -/
def scorecardFactors : List ℚ := [5/4, 1, 11/10, 9/10, 21/20, 19/20, 1]

/-- `scorecardMultiplier = Object.values(scorecardFactors).reduce((prod, f) => prod * f, 1)`. -/
def scorecardMultiplier : ℚ := scorecardFactors.foldl (· * ·) 1

/-- `scorecardValue = regionAverage * scorecardMultiplier`. -/
def scorecardValue (_cd : CompanyData) : ℚ :=
  regionAverage * scorecardMultiplier

/-- The twelve named risk-category scores of the Risk-Factor Summation
method, fixed literals in the source. -/
structure RiskFactors where
  management : ℚ
  stage : ℚ
  legislation : ℚ
  manufacturing : ℚ
  sales : ℚ
  funding : ℚ
  competition : ℚ
  technology : ℚ
  litigation : ℚ
  reputation : ℚ
  potential : ℚ
  exitScore : ℚ

/-- The literal `riskFactors` object of the source. -/
def riskFactors : RiskFactors :=
  ⟨0, -1, 0, 0, 1, 0, -1, 1, 0, 0, 1, 0⟩

/-- Sum of the twelve risk-category scores
(`Object.values(riskFactors).reduce((sum, risk) => sum + risk, 0)`). -/
def riskSum (r : RiskFactors) : ℚ :=
  r.management + r.stage + r.legislation + r.manufacturing + r.sales +
    r.funding + r.competition + r.technology + r.litigation +
    r.reputation + r.potential + r.exitScore

/-- `riskAdjustment = riskSum * 0.25`. -/
def riskAdjustment : ℚ := riskSum riskFactors * (25/100)

/-- `riskFactorValue = scorecardValue * (1 + riskAdjustment)`. -/
def riskFactorValue (cd : CompanyData) : ℚ :=
  scorecardValue cd * (1 + riskAdjustment)

/-- JavaScript `v || d` on an already-computed finite number: `0` is falsy. -/
def jsOrQ (v d : ℚ) : ℚ := if v = 0 then d else v

/-- Venture-Capital method:
`projectedRevenue5Y = revenue * Math.pow(1 + growthRate/100, 5) || 10000000`,
`vcValue = projectedRevenue5Y * 15 / 10 * (1 - 0.25)`. -/
def vcValue (cd : CompanyData) : ℚ :=
  let n := normalize cd
  let projectedRevenue5Y := jsOrQ (n.revenue * (1 + n.growthRate / 100) ^ 5) 10000000
  let industryPEMultiple : ℚ := 15
  let projectedExitValue := projectedRevenue5Y * industryPEMultiple
  let requiredROI : ℚ := 10
  let investorShare : ℚ := 25/100
  projectedExitValue / requiredROI * (1 - investorShare)

/-- `discountRate = 0.12`. -/
def discountRate : ℚ := 12/100

/-- `terminalGrowth = 0.03`. -/
def terminalGrowth : ℚ := 3/100

/-- The DCF margin `ebitda / revenue || 0.3` under IEEE-754 semantics:
* `revenue ≠ 0`: an ordinary quotient, falsy exactly when it is `0`
  (i.e. `ebitda = 0`, that is `expenses = revenue`), in which case the
  `0.3` fallback applies;
* `revenue = 0, expenses = 0`: `0/0` is NaN, falsy, so the fallback applies;
* `revenue = 0, expenses ≠ 0`: the quotient is `±Infinity`, which is truthy;
  every projected cash flow is then `0 * ±Infinity = NaN`, so the whole DCF
  value is NaN — modelled as `none`. -/
def dcfMargin (revenue expenses : ℚ) : Option ℚ :=
  if revenue = 0 then
    if expenses = 0 then some (3/10) else none
  else if (revenue - expenses) / revenue = 0 then some (3/10)
  else some ((revenue - expenses) / revenue)

/-- Year-`y` projected cash flow:
`revenue * Math.pow(1 + growthRate/100, year) * margin`. -/
def projCashFlow (revenue g m : ℚ) (year : ℕ) : ℚ :=
  revenue * (1 + g / 100) ^ year * m

/-- The DCF value given a finite margin `m`: five discounted projected cash
flows plus the Gordon terminal value discounted from year 5. -/
def dcfFromMargin (revenue g m : ℚ) : ℚ :=
  let cf := projCashFlow revenue g m
  let terminalValue := cf 5 * (1 + terminalGrowth) / (discountRate - terminalGrowth)
  (cf 1 / (1 + discountRate) ^ 1 + cf 2 / (1 + discountRate) ^ 2 +
      cf 3 / (1 + discountRate) ^ 3 + cf 4 / (1 + discountRate) ^ 4 +
      cf 5 / (1 + discountRate) ^ 5) +
    terminalValue / (1 + discountRate) ^ 5

/-- The DCF block of `calculateValuations`; `none` is the NaN outcome (see
`dcfMargin`). -/
def dcfValue (cd : CompanyData) : Option ℚ :=
  let n := normalize cd
  (dcfMargin n.revenue n.expenses).map fun m => dcfFromMargin n.revenue n.growthRate m

/-- The four fixed `industryMultiples` of the Comparables method:
revenue, EBITDA, customer and employee multiples. -/
def industryMultiples : ℚ × ℚ × ℚ × ℚ := (25/2, 35, 4200, 500000)

/-- `comparablesValue = Math.max(revenue*12.5, ebitda*35, customerCount*4200,
parseFloat(companyData.employees || '0')*500000)`, in the source's
left-to-right order. -/
def comparablesValue (cd : CompanyData) : ℚ :=
  let n := normalize cd
  let ebitda := n.revenue - n.expenses
  max (max (max (n.revenue * industryMultiples.1) (ebitda * industryMultiples.2.1))
      (n.customerCount * industryMultiples.2.2.1))
    (n.employees * industryMultiples.2.2.2)

/-- `ucaasValue = comparablesValue` ("same as comparables for now",
`ValuationAnalysis.tsx` only). -/
def ucaasValue (cd : CompanyData) : ℚ := comparablesValue cd

/-- The "AI valuation" of `ValuationAnalysis.tsx`: the comparables baseline
with step premiums/discounts keyed off growth rate, churn rate and the
LTV/CAC ratio, then a fixed market-position premium. -/
def aiValue (cd : CompanyData) : ℚ :=
  let n := normalize cd
  let a0 := comparablesValue cd
  let a1 := if 30 < n.growthRate then a0 * (12/10)
    else if 20 < n.growthRate then a0 * (11/10) else a0
  let a2 := if n.churnRate < 5 then a1 * (11/10)
    else if 10 ≤ n.churnRate then a1 * (9/10) else a1
  let a3 := if 3 < n.ltv / n.cac then a2 * (115/100) else a2 * (105/100)
  a3 * (105/100)

/-- The `methodValues` lookup table built in `calculateValuations`
(`ValuationAnalysis.tsx`; `MultiModelValuation.tsx` has the same table
without the `ucaas`/`ai` rows).  `none` is a NaN entry. -/
def methodValue (cd : CompanyData) : Method → Option ℚ
  | Method.berkus => some (berkusValue cd)
  | Method.scorecard => some (scorecardValue cd)
  | Method.riskFactor => some (riskFactorValue cd)
  | Method.vcMethod => some (vcValue cd)
  | Method.dcf => dcfValue cd
  | Method.comparables => some (comparablesValue cd)
  | Method.ucaas => some (ucaasValue cd)
  | Method.ai => some (aiValue cd)

/-- `finalValue = methodValues[recommendation.model] || scorecardValue`:
an absent, NaN or zero entry falls back to the Scorecard value. -/
def finalValue (cd : CompanyData) : ℚ :=
  match methodValue cd (getAIRecommendation cd) with
  | none => scorecardValue cd
  | some v => if v = 0 then scorecardValue cd else v

/-! ## Report assembly and confidence (`setValuationResults`, range rendering) -/

/-- The stored `valuationResults.dcf`, i.e. `Math.round(dcfValue)`
(JavaScript `Math.round x = ⌊x + 1/2⌋`, which is Mathlib's `round`;
`Math.round NaN` is NaN, hence `Option`). -/
def roundedDcf (cd : CompanyData) : Option ℤ := (dcfValue cd).map round

/-- The stored `valuationResults.ucaas`. -/
def roundedUcaas (cd : CompanyData) : ℤ := round (ucaasValue cd)

/-- The stored `valuationResults.ai`. -/
def roundedAi (cd : CompanyData) : ℤ := round (aiValue cd)

/-- The stored `valuationResults.final`. -/
def finalRounded (cd : CompanyData) : ℤ := round (finalValue cd)

/-- The "Conservative" bound of the rendered Valuation Range:
`Math.min(valuationResults.dcf, valuationResults.ucaas, valuationResults.ai)`. -/
def rangeLow (cd : CompanyData) : Option ℤ :=
  (roundedDcf cd).map fun d => min (min d (roundedUcaas cd)) (roundedAi cd)

/-- The "Optimistic" bound of the rendered Valuation Range:
`Math.max(valuationResults.dcf, valuationResults.ucaas, valuationResults.ai)`. -/
def rangeHigh (cd : CompanyData) : Option ℤ :=
  (roundedDcf cd).map fun d => max (max d (roundedUcaas cd)) (roundedAi cd)

/-- `dataCompleteness = Object.values(companyData).filter(val => val && val !== '').length
/ Object.keys(companyData).length`, over the record's (string) field values. -/
def dataCompleteness (vals : List String) : ℚ :=
  ((vals.filter fun v => v ≠ "").length : ℚ) / vals.length

/-- `methodConfidence = revenue > 0 ? 0.9 : 0.7`. -/
def methodConfidencePrior (revenue : ℚ) : ℚ :=
  if 0 < revenue then 9/10 else 7/10

/-- `confidence = Math.min(95, Math.max(60, dataCompleteness * methodConfidence * 100))`. -/
def confidenceClamped (vals : List String) (revenue : ℚ) : ℚ :=
  min 95 (max 60 (dataCompleteness vals * methodConfidencePrior revenue * 100))

/-- The stored `valuationResults.confidence = Math.round(confidence)`. -/
def confidence (vals : List String) (revenue : ℚ) : ℤ :=
  round (confidenceClamped vals revenue)

/-! ## Wizard percent-field handler (`ValuationWizard`, `handleCompanyDataChange`) -/

/-- `handleCompanyDataChange` for a field whose name contains `rate` or
`margin` (growth_rate, churn_rate, profit_margin, ebitda_margin): the stored
value is `parseFloat(value) / 100`, with no condition on the magnitude of
the value.  `none` is a NaN parse (stored as NaN). -/
def handleCompanyDataChange (v : Option ℚ) : Option ℚ :=
  v.map fun x => x / 100

/-! ## Spec-side formulations (used for refinement claims only) -/

/-- Spec wording §4.5: `clamp(x, lo, hi)`. -/
def clampQ (x lo hi : ℚ) : ℚ := max lo (min hi x)

/-- Spec wording §4.5: `overall_confidence = clamp(data_quality_score ×
method_confidence_prior × 100, 60, 95)`, rounded to the nearest integer. -/
def spec_confidence (d prior : ℚ) : ℤ :=
  round (clampQ (d * prior * 100) 60 95)

/-- Spec wording for the Comparables method: the maximum of the four anchor
estimates revenue × 12.5, operating-profit × 35, customer-count × 4200 and
headcount × 500000. -/
def spec_comparables (cd : CompanyData) : ℚ :=
  let n := normalize cd
  max (max (n.revenue * (25/2)) ((n.revenue - n.expenses) * 35))
    (max (n.customerCount * 4200) (n.employees * 500000))

/-- Spec wording §4.1 for percent-like fields: divide by 100 exactly when the
value is greater than 1, otherwise leave it unchanged. -/
def spec_percentNormalize (v : ℚ) : ℚ :=
  if 1 < v then v / 100 else v

/-! ## Concrete inputs used by scenarios and counterexamples -/

/-- A fully empty form: every numeric field is the empty string (NaN parse),
every qualitative field absent. -/
def emptyData : CompanyData :=
  ⟨none, none, none, none, none, none, none, none, "", "", ""⟩

/-- Scenario D of the spec: revenue 5,000,000, stage `mature`. -/
def scenarioD : CompanyData :=
  ⟨some 5000000, none, none, none, none, none, none, none, "mature", "", ""⟩




/-- Rounding a rational lying in `[60, 95]` lands in `[60, 95]`. -/
lemma round_mem_of_mem {y : ℚ} (h1 : 60 ≤ y) (h2 : y ≤ 95) :
    60 ≤ round y ∧ round y ≤ 95 := by
  rw [round_eq]
  constructor
  · exact Int.le_floor.mpr (by push_cast; linarith)
  · have : ⌊y + 1 / 2⌋ < 96 := Int.floor_lt.mpr (by push_cast; linarith)
    omega

/-- **C1.** The selector agrees with the spec's fixed-precedence decision
tree on every input, and Scenario A (revenue 0, stage `pre-revenue`,
team-experience `medium`) yields Berkus. -/
theorem getAIRecommendation_eq_specSelector :
    (∀ cd : CompanyData,
      getAIRecommendation cd =
        specSelector (jsOrNum cd.revenue 0) (jsOrStr cd.stage "unknown")
          (jsOrStr cd.teamExperience "medium")
          (jsOrStr cd.productStage "development")) ∧
    getAIRecommendation scenarioA = Method.berkus := by
  refine ⟨fun cd => ?_, rfl⟩
  simp only [getAIRecommendation, specSelector]
  split_ifs with h1 h2 h3 h4 h5 h6 h7 h8 h9 h10 <;>
    try (first | rfl | tauto)
  · exact h4 ⟨by linarith [h10.1], h10.1⟩
  · rename_i hge
    exact h4 ⟨by linarith, hge⟩


/-- **C2.** For every field-value list and revenue, the stored confidence
equals the spec's `round (clamp (completeness × prior × 100) 60 95)` with
prior `0.9` when revenue is positive and `0.7` otherwise, and it is an
integer in `[60, 95]`.  The list is required non-empty because the source
divides by the number of record keys (the real record always has at least
nine). -/
theorem confidence_eq_spec_and_bounded (vals : List String) (revenue : ℚ)
    (_hne : vals ≠ []) :
    confidence vals revenue =
      spec_confidence (dataCompleteness vals) (methodConfidencePrior revenue) ∧
    60 ≤ confidence vals revenue ∧ confidence vals revenue ≤ 95 := by
  have hclamp : ∀ x : ℚ, clampQ x 60 95 = min 95 (max 60 x) := by
    intro x
    rw [clampQ, max_min_distrib_left]
    norm_num
  have heq : confidence vals revenue =
      spec_confidence (dataCompleteness vals) (methodConfidencePrior revenue) := by
    rw [confidence, spec_confidence, hclamp, confidenceClamped]
  refine ⟨heq, ?_⟩
  have h60 : 60 ≤ confidenceClamped vals revenue := by
    rw [confidenceClamped]
    exact le_min (by norm_num) (le_max_left _ _)
  have h95 : confidenceClamped vals revenue ≤ 95 := min_le_left _ _
  exact round_mem_of_mem h60 h95

/-- **C2 witness.** A two-field record, one field filled, revenue positive. -/
theorem confidence_eq_spec_and_bounded_witness :
    confidence ["5000000", ""] 5000000 =
      spec_confidence (dataCompleteness ["5000000", ""])
        (methodConfidencePrior 5000000) ∧
    60 ≤ confidence ["5000000", ""] 5000000 ∧
    confidence ["5000000", ""] 5000000 ≤ 95 :=
  confidence_eq_spec_and_bounded ["5000000", ""] 5000000 (by simp)

/-- **C5.** For every input, the Risk-Factor Summation value equals the
Scorecard value times `(1 + 0.25 × Σ risk)`, and each of the twelve named
risk-category scores lies in `[-2, 2]`. -/
theorem riskFactor_eq_scorecard_with_risk_sum :
    (∀ cd : CompanyData,
      riskFactorValue cd =
        scorecardValue cd * (1 + 25/100 * riskSum riskFactors)) ∧
    (-2 ≤ riskFactors.management ∧ riskFactors.management ≤ 2) ∧
    (-2 ≤ riskFactors.stage ∧ riskFactors.stage ≤ 2) ∧
    (-2 ≤ riskFactors.legislation ∧ riskFactors.legislation ≤ 2) ∧
    (-2 ≤ riskFactors.manufacturing ∧ riskFactors.manufacturing ≤ 2) ∧
    (-2 ≤ riskFactors.sales ∧ riskFactors.sales ≤ 2) ∧
    (-2 ≤ riskFactors.funding ∧ riskFactors.funding ≤ 2) ∧
    (-2 ≤ riskFactors.competition ∧ riskFactors.competition ≤ 2) ∧
    (-2 ≤ riskFactors.technology ∧ riskFactors.technology ≤ 2) ∧
    (-2 ≤ riskFactors.litigation ∧ riskFactors.litigation ≤ 2) ∧
    (-2 ≤ riskFactors.reputation ∧ riskFactors.reputation ≤ 2) ∧
    (-2 ≤ riskFactors.potential ∧ riskFactors.potential ≤ 2) ∧
    (-2 ≤ riskFactors.exitScore ∧ riskFactors.exitScore ≤ 2) := by
  refine ⟨fun cd => ?_, ?_⟩
  · rw [riskFactorValue, riskAdjustment]
    ring
  · norm_num [riskFactors]

/-- **C6.** For every input, the Comparables value is the maximum of the
four anchor estimates (revenue × 12.5, operating-profit × 35,
customer-count × 4200, headcount × 500000), and Scenario D (revenue
5,000,000, stage `mature`) selects the Comparables method. -/
theorem comparables_is_max_of_anchors :
    (∀ cd : CompanyData, comparablesValue cd = spec_comparables cd) ∧
    getAIRecommendation scenarioD = Method.comparables := by
  refine ⟨fun cd => ?_, rfl⟩
  simp only [comparablesValue, spec_comparables, industryMultiples, max_assoc]

/-- **C10.** The Berkus, Scorecard and Risk-Factor Summation values are
input-independent: any two raw inputs give identical values, because the
qualitative factor scores and risk scores are fixed literals in the source. -/
theorem berkus_scorecard_riskFactor_input_independent :
    ∀ cd1 cd2 : CompanyData,
      berkusValue cd1 = berkusValue cd2 ∧
      scorecardValue cd1 = scorecardValue cd2 ∧
      riskFactorValue cd1 = riskFactorValue cd2 :=
  fun _ _ => ⟨rfl, rfl, rfl⟩


/-- **C7 counterexample.** The normalizer does not map every absent numeric
field to 0 and the absent stage not to `"growth"`: an absent growth rate
becomes 35 and an absent stage becomes `"unknown"`. -/
theorem normalize_defaults_counterexample :
    (normalize emptyData).growthRate = 35 ∧ (35 : ℚ) ≠ 0 ∧
    (normalize emptyData).stage = "unknown" ∧ "unknown" ≠ "growth" :=
  ⟨rfl, by norm_num, rfl, by decide⟩

/-- **C7 amended.** The normalizer never raises (it is a total function) and
maps an absent/empty/unparsable numeric field to 0 for revenue, expenses,
customer count and employees, but to 35 for growth rate, 8 for churn rate,
1200 for CAC and 5000 for LTV; an absent qualitative field defaults to
team-experience `"medium"`, product-stage `"development"` and stage
`"unknown"` (not `"growth"`). -/
theorem normalize_defaults (cd : CompanyData) :
    (cd.revenue = none → (normalize cd).revenue = 0) ∧
    (cd.expenses = none → (normalize cd).expenses = 0) ∧
    (cd.customerCount = none → (normalize cd).customerCount = 0) ∧
    (cd.employees = none → (normalize cd).employees = 0) ∧
    (cd.growthRate = none → (normalize cd).growthRate = 35) ∧
    (cd.churnRate = none → (normalize cd).churnRate = 8) ∧
    (cd.cac = none → (normalize cd).cac = 1200) ∧
    (cd.ltv = none → (normalize cd).ltv = 5000) ∧
    (cd.stage = "" → (normalize cd).stage = "unknown") ∧
    (cd.teamExperience = "" → (normalize cd).teamExperience = "medium") ∧
    (cd.productStage = "" → (normalize cd).productStage = "development") := by
  refine ⟨fun h => ?_, fun h => ?_, fun h => ?_, fun h => ?_, fun h => ?_,
    fun h => ?_, fun h => ?_, fun h => ?_, fun h => ?_, fun h => ?_, fun h => ?_⟩ <;>
    simp [normalize, jsOrNum, jsOrStr, h]

/-- **C7 witness.** All eleven defaults, read off the fully empty form. -/
theorem normalize_defaults_witness :
    (normalize emptyData).revenue = 0 ∧
    (normalize emptyData).expenses = 0 ∧
    (normalize emptyData).customerCount = 0 ∧
    (normalize emptyData).employees = 0 ∧
    (normalize emptyData).growthRate = 35 ∧
    (normalize emptyData).churnRate = 8 ∧
    (normalize emptyData).cac = 1200 ∧
    (normalize emptyData).ltv = 5000 ∧
    (normalize emptyData).stage = "unknown" ∧
    (normalize emptyData).teamExperience = "medium" ∧
    (normalize emptyData).productStage = "development" := by
  obtain ⟨h1, h2, h3, h4, h5, h6, h7, h8, h9, h10, h11⟩ :=
    normalize_defaults emptyData
  exact ⟨h1 rfl, h2 rfl, h3 rfl, h4 rfl, h5 rfl, h6 rfl, h7 rfl, h8 rfl,
    h9 rfl, h10 rfl, h11 rfl⟩

/-- **C8 counterexample.** An already-fractional percent value (0.5) is
divided by 100 anyway: the wizard stores 0.005 where the spec rule would
keep 0.5. -/
theorem percent_division_counterexample :
    handleCompanyDataChange (some (1/2)) = some (1/200) ∧
    spec_percentNormalize (1/2) = 1/2 ∧ (1/200 : ℚ) ≠ 1/2 := by
  refine ⟨?_, ?_, by norm_num⟩
  · simp [handleCompanyDataChange]
    norm_num
  · norm_num [spec_percentNormalize]

/-- **C8 amended.** Percent-like fields are divided by 100 unconditionally,
with no magnitude test: the wizard's rate/margin handler stores `v / 100`
for every parsed value `v`, and the engine's projection likewise always
interprets the growth rate as a percentage, using the factor
`1 + g / 100`. -/
theorem percent_division_unconditional :
    (∀ v : ℚ, handleCompanyDataChange (some v) = some (v / 100)) ∧
    (∀ (revenue g m : ℚ) (y : ℕ),
      projCashFlow revenue g m y = revenue * (1 + g / 100) ^ y * m) :=
  ⟨fun _ => rfl, fun _ _ _ _ => rfl⟩


/-- A raw input with revenue 100 and expenses 200: operating expenses exceed
revenue. -/
def lossMakingData : CompanyData :=
  ⟨some 100, some 35, some 200, none, none, none, none, none, "", "", ""⟩

/-- **C3 counterexample.** With revenue 100 and expenses 200 the DCF margin
is `-1` and the DCF point-value is strictly negative (so it is neither
non-negative nor a documented fallback). -/
theorem dcf_negative_counterexample :
    (dcfValue lossMakingData).getD 0 < 0 := by
  norm_num [dcfValue, dcfMargin, dcfFromMargin, projCashFlow, normalize,
    jsOrNum, discountRate, terminalGrowth, lossMakingData]

/-- The DCF value built from a finite margin is non-negative whenever the
revenue, the margin and the projection base `1 + g/100` are non-negative. -/
lemma dcfFromMargin_nonneg {r g m : ℚ} (hr : 0 ≤ r) (hg : -100 ≤ g)
    (hm : 0 ≤ m) : 0 ≤ dcfFromMargin r g m := by
  have hx : (0 : ℚ) ≤ 1 + g / 100 := by linarith
  have hcf : ∀ y : ℕ, 0 ≤ projCashFlow r g m y := fun y =>
    mul_nonneg (mul_nonneg hr (pow_nonneg hx y)) hm
  simp only [dcfFromMargin, discountRate, terminalGrowth]
  refine add_nonneg (add_nonneg (add_nonneg (add_nonneg
      (add_nonneg ?_ ?_) ?_) ?_) ?_) ?_ <;>
    first
      | exact div_nonneg (hcf _) (by norm_num)
      | exact div_nonneg
          (div_nonneg (mul_nonneg (hcf 5) (by norm_num)) (by norm_num))
          (by norm_num)

/-- **C3 amended.** For inputs whose parsed numeric fields are non-negative,
whose expenses do not exceed revenue, and whose growth rate is at least
-100 (so the projection base is non-negative), every method value is
non-negative and the DCF value is a defined (non-NaN) non-negative number.
When expenses exceed revenue the DCF value is negative
(`dcf_negative_counterexample`), not the documented fallback. -/
theorem method_values_nonneg (cd : CompanyData)
    (hr : 0 ≤ (normalize cd).revenue)
    (he : 0 ≤ (normalize cd).expenses)
    (hre : (normalize cd).expenses ≤ (normalize cd).revenue)
    (hg : -100 ≤ (normalize cd).growthRate)
    (_hc : 0 ≤ (normalize cd).customerCount)
    (_hemp : 0 ≤ (normalize cd).employees) :
    0 ≤ berkusValue cd ∧ 0 ≤ scorecardValue cd ∧ 0 ≤ riskFactorValue cd ∧
    0 ≤ vcValue cd ∧ (∃ v, dcfValue cd = some v ∧ 0 ≤ v) ∧
    0 ≤ comparablesValue cd := by
  have hx : (0 : ℚ) ≤ 1 + (normalize cd).growthRate / 100 := by linarith
  refine ⟨?_, ?_, ?_, ?_, ?_, ?_⟩
  · norm_num [berkusValue, berkusFactors, maxBerkusValue]
  · norm_num [scorecardValue, regionAverage, scorecardMultiplier,
      scorecardFactors]
  · norm_num [riskFactorValue, scorecardValue, regionAverage,
      scorecardMultiplier, scorecardFactors, riskAdjustment, riskSum,
      riskFactors]
  · simp only [vcValue]
    have hp : 0 ≤ jsOrQ ((normalize cd).revenue *
        (1 + (normalize cd).growthRate / 100) ^ 5) 10000000 := by
      rw [jsOrQ]
      split_ifs with h
      · norm_num
      · exact mul_nonneg hr (pow_nonneg hx 5)
    exact mul_nonneg (div_nonneg (mul_nonneg hp (by norm_num)) (by norm_num))
      (by norm_num)
  · simp only [dcfValue, dcfMargin]
    by_cases hrev : (normalize cd).revenue = 0
    · have hexp : (normalize cd).expenses = 0 :=
        le_antisymm (hrev ▸ hre) he
      refine ⟨dcfFromMargin (normalize cd).revenue
        (normalize cd).growthRate (3/10), ?_, ?_⟩
      · simp [hrev, hexp]
      · exact dcfFromMargin_nonneg hr hg (by norm_num)
    · have hrpos : 0 < (normalize cd).revenue := lt_of_le_of_ne hr (Ne.symm hrev)
      by_cases hz : ((normalize cd).revenue - (normalize cd).expenses) /
          (normalize cd).revenue = 0
      · refine ⟨dcfFromMargin (normalize cd).revenue
          (normalize cd).growthRate (3/10), ?_, ?_⟩
        · simp [hrev, hz]
        · exact dcfFromMargin_nonneg hr hg (by norm_num)
      · refine ⟨dcfFromMargin (normalize cd).revenue (normalize cd).growthRate
          (((normalize cd).revenue - (normalize cd).expenses) /
            (normalize cd).revenue), ?_, ?_⟩
        · simp [hrev, hz]
        · exact dcfFromMargin_nonneg hr hg
            (div_nonneg (by linarith) hr)
  · have h0 : 0 ≤ (normalize cd).revenue * industryMultiples.1 :=
      mul_nonneg hr (by norm_num [industryMultiples])
    calc (0 : ℚ) ≤ (normalize cd).revenue * industryMultiples.1 := h0
      _ ≤ _ := le_trans (le_max_left _ _)
          (le_trans (le_max_left _ _) (le_max_left _ _))

/-- **C3 amended witness.** A profitable concrete input: revenue 100,
expenses 50, growth 35%, 10 customers, 2 employees. -/
theorem method_values_nonneg_witness :
    0 ≤ berkusValue ⟨some 100, some 35, some 50, some 2, some 10, none,
        none, none, "", "", ""⟩ ∧
    0 ≤ scorecardValue ⟨some 100, some 35, some 50, some 2, some 10, none,
        none, none, "", "", ""⟩ ∧
    0 ≤ riskFactorValue ⟨some 100, some 35, some 50, some 2, some 10, none,
        none, none, "", "", ""⟩ ∧
    0 ≤ vcValue ⟨some 100, some 35, some 50, some 2, some 10, none,
        none, none, "", "", ""⟩ ∧
    (∃ v, dcfValue ⟨some 100, some 35, some 50, some 2, some 10, none,
        none, none, "", "", ""⟩ = some v ∧ 0 ≤ v) ∧
    0 ≤ comparablesValue ⟨some 100, some 35, some 50, some 2, some 10, none,
        none, none, "", "", ""⟩ :=
  method_values_nonneg _ (by norm_num [normalize, jsOrNum])
    (by norm_num [normalize, jsOrNum]) (by norm_num [normalize, jsOrNum])
    (by norm_num [normalize, jsOrNum]) (by norm_num [normalize, jsOrNum])
    (by norm_num [normalize, jsOrNum])


/-- **C4 counterexample.** On the fully empty form the rendered range is
`[0, 0]` (the min/max over only the DCF, UCaaS and AI values), while the
final valuation is the Scorecard fallback 2,468,813 — strictly above the
range's high end; also no average of all method values is computed
anywhere in the assembler. -/
theorem range_excludes_final_counterexample :
    rangeLow emptyData = some 0 ∧ rangeHigh emptyData = some 0 ∧
    finalRounded emptyData = 2468813 ∧ (0 : ℤ) < finalRounded emptyData := by
  have hsel : getAIRecommendation emptyData = Method.scorecard := rfl
  simp only [emptyData] at hsel
  refine ⟨?_, ?_, ?_, ?_⟩ <;>
    norm_num [rangeLow, rangeHigh, roundedDcf, roundedUcaas, roundedAi,
      finalRounded, finalValue, hsel, methodValue, dcfValue, dcfMargin,
      dcfFromMargin, projCashFlow, ucaasValue, aiValue, comparablesValue,
      industryMultiples, scorecardValue, regionAverage, scorecardMultiplier,
      scorecardFactors, normalize, jsOrNum, jsOrStr, emptyData, round_eq]

/-- **C4 amended.** Whenever the DCF entry is a number (not NaN), the
rendered range bounds are exactly the minimum and maximum of the three
displayed method values (DCF, UCaaS, AI) — not of all methods, and with no
average — and they satisfy low ≤ high.  The final valuation is not
constrained to the range (`range_excludes_final_counterexample`). -/
theorem range_low_le_high (cd : CompanyData) (d : ℤ)
    (hd : roundedDcf cd = some d) :
    rangeLow cd = some (min (min d (roundedUcaas cd)) (roundedAi cd)) ∧
    rangeHigh cd = some (max (max d (roundedUcaas cd)) (roundedAi cd)) ∧
    min (min d (roundedUcaas cd)) (roundedAi cd) ≤
      max (max d (roundedUcaas cd)) (roundedAi cd) := by
  refine ⟨?_, ?_, le_trans (min_le_right _ _) (le_max_right _ _)⟩ <;>
    simp [rangeLow, rangeHigh, hd]

/-- **C4 amended witness.** The empty form, whose DCF entry is the number 0. -/
theorem range_low_le_high_witness :
    rangeLow emptyData =
      some (min (min 0 (roundedUcaas emptyData)) (roundedAi emptyData)) ∧
    rangeHigh emptyData =
      some (max (max 0 (roundedUcaas emptyData)) (roundedAi emptyData)) ∧
    min (min 0 (roundedUcaas emptyData)) (roundedAi emptyData) ≤
      max (max 0 (roundedUcaas emptyData)) (roundedAi emptyData) :=
  range_low_le_high emptyData 0 (by
    norm_num [roundedDcf, dcfValue, dcfMargin, dcfFromMargin, projCashFlow,
      normalize, jsOrNum, emptyData, round_eq])

/-- Raw inputs for the C9 counterexample: revenue 5,000,000, expenses
10,000,000, growth rate 10% resp. 20%. -/
def lossG10 : CompanyData :=
  ⟨some 5000000, some 10, some 10000000, none, none, none, none, none,
    "growth", "", ""⟩

/-- Same as `lossG10` with growth rate 20%. -/
def lossG20 : CompanyData :=
  ⟨some 5000000, some 20, some 10000000, none, none, none, none, none,
    "growth", "", ""⟩

/-- **C9 counterexample.** With revenue 5,000,000 held fixed and expenses
10,000,000 (a permitted "any fixed expenses"), raising the growth rate from
10 to 20 strictly lowers the DCF value: DCF is not monotonically increasing
in the growth rate for every fixed choice of the other inputs. -/
theorem dcf_not_monotone_counterexample :
    (dcfValue lossG20).getD 0 < (dcfValue lossG10).getD 0 := by
  norm_num [dcfValue, dcfMargin, dcfFromMargin, projCashFlow, normalize,
    jsOrNum, discountRate, terminalGrowth, lossG10, lossG20]

/-- The quintic `u + u^2 + u^3 + u^4 + (112/9) u^5` underlying the DCF
computation is monotone on all of ℚ. -/
lemma quinticMono {u v : ℚ} (huv : u ≤ v) :
    u + u^2 + u^3 + u^4 + (112/9) * u^5 ≤
      v + v^2 + v^3 + v^4 + (112/9) * v^5 := by
  nlinarith [sq_nonneg (u+v), sq_nonneg (u-v), sq_nonneg (u*v),
    sq_nonneg (u*v-1), sq_nonneg (u*v+1), sq_nonneg (u+v+1),
    sq_nonneg (u^2+v^2), sq_nonneg (u^2-v^2), sq_nonneg (u^2+u),
    sq_nonneg (v^2+v), mul_nonneg (sub_nonneg.2 huv) (sq_nonneg (u+v)),
    mul_nonneg (sub_nonneg.2 huv) (sq_nonneg (u-v)),
    mul_nonneg (sub_nonneg.2 huv) (sq_nonneg (u*v))]

/-- The DCF value is monotone in the growth rate whenever revenue and margin
are non-negative: under the substitution `u = (1 + g/100) * (25/28)` it
equals `r * m * (u + u^2 + u^3 + u^4 + (112/9) * u^5)` (`quinticMono`). -/
lemma dcfFromMargin_mono {r g1 g2 m : ℚ} (hr : 0 ≤ r) (hm : 0 ≤ m)
    (h12 : g1 ≤ g2) : dcfFromMargin r g1 m ≤ dcfFromMargin r g2 m := by
  have hexp : ∀ g : ℚ, dcfFromMargin r g m =
      r * m * ((1 + g/100) * (25/28) + ((1 + g/100) * (25/28))^2 +
        ((1 + g/100) * (25/28))^3 + ((1 + g/100) * (25/28))^4 +
        (112/9) * ((1 + g/100) * (25/28))^5) := by
    intro g
    simp only [dcfFromMargin, projCashFlow, discountRate, terminalGrowth]
    ring
  rw [hexp g1, hexp g2]
  refine mul_le_mul_of_nonneg_left (quinticMono ?_) (mul_nonneg hr hm)
  linarith

/-- **C9 amended.** Holding revenue fixed at 5,000,000 and any fixed
expenses not exceeding revenue (so the computed margin is non-negative),
the DCF value is monotonically increasing in the parsed growth rate; for
expenses above revenue it is decreasing instead
(`dcf_not_monotone_counterexample`). -/
theorem dcf_monotone_in_growth (e g1 g2 m : ℚ) (he : e ≤ 5000000)
    (h12 : g1 ≤ g2) (hm : dcfMargin 5000000 e = some m) :
    dcfFromMargin 5000000 g1 m ≤ dcfFromMargin 5000000 g2 m := by
  have hm0 : 0 ≤ m := by
    rw [dcfMargin] at hm
    split_ifs at hm with h1 h2
    · norm_num at h1
    · cases hm
      norm_num
    · cases hm
      exact div_nonneg (by linarith) (by norm_num)
  exact dcfFromMargin_mono (by norm_num) hm0 h12

/-- **C9 amended witness.** Revenue 5,000,000, expenses 3,500,000 (margin
0.3), growth rates 10 and 35. -/
theorem dcf_monotone_in_growth_witness :
    dcfMargin 5000000 3500000 = some (3/10) ∧
    dcfFromMargin 5000000 10 (3/10) ≤ dcfFromMargin 5000000 35 (3/10) :=
  ⟨by norm_num [dcfMargin],
    dcf_monotone_in_growth 3500000 10 35 (3/10) (by norm_num) (by norm_num)
      (by norm_num [dcfMargin])⟩

end Valuation
